import Mathlib

/-!
Verification of the alerting module of the Band-Camp-Tracker repository
(`src/alerts/alerts.py`), shallowly embedded in Lean 4.  Database queries
and the SMTP transport are modelled as explicit inputs; Python exceptions
become `Except`/`Option` values; Python ints become `Int` and Python
division becomes exact division on `ℚ` with an explicit zero-divisor error.
-/

namespace BandCamp

/-- Constant `ALERT_INTERVAL` from `alerts.py`: minutes between alert checks. -/
def ALERT_INTERVAL : Nat := 60

/-- Constant `COMPARISON_PERIOD` from `alerts.py`: minutes used for historic trends. -/
def COMPARISON_PERIOD : Nat := 2880

/-- Constant `GENRE_NOTIFICATION_THRESHOLD` from `alerts.py`: percent growth needed
before alerting. -/
def GENRE_NOTIFICATION_THRESHOLD : ℚ := 20

/-- Models the Python expression `f"{a/b}"` for the case where `b` divides
`a` exactly (as in `COMPARISON_PERIOD/60 = 48.0`): the integer quotient
followed by `.0`. -/
def py_int_div_float_repr (a b : Nat) : String :=
  toString (a / b) ++ ".0"

/-- Helper for `py_title`: walks the characters keeping track of whether the
previous character was alphabetic, as CPython `str.title` does. -/
def py_title_aux : Bool → List Char → List Char
  | _, [] => []
  | prevAlpha, c :: cs =>
    (if prevAlpha then c.toLower else c.toUpper) :: py_title_aux c.isAlpha cs

/-- Models Python `str.title()` on ASCII strings: the first letter of every
word is uppercased, the rest lowercased. -/
def py_title (s : String) : String :=
  ⟨py_title_aux false s.data⟩

/-- Round-half-to-even on `ℚ`, as used by Python fixed-point formatting. -/
def round_half_even (q : ℚ) : Int :=
  let f := ⌊q⌋
  if q - f < 1/2 then f
  else if q - f > 1/2 then f + 1
  else if f % 2 = 0 then f else f + 1

/-- Models the Python format specifier `{x:.1f}`: fixed-point with one
decimal digit, ties to even. -/
def format_1f (q : ℚ) : String :=
  let n := round_half_even (q * 10)
  if n < 0 then
    "-" ++ toString ((-n) / 10) ++ "." ++ toString ((-n) % 10)
  else
    toString (n / 10) ++ "." ++ toString (n % 10)

/-- Predicate `contains_sub hay needle`: true when `needle` occurs as a contiguous
substring of `hay` (models Python's `in` on strings). -/
def contains_sub (hay needle : String) : Bool :=
  hay.data.tails.any fun t => needle.data.isPrefixOf t

/-- Function `convert_mins_to_sql_time` from `alerts.py`/`utilities.py`: raises
`ValueError` when `minutes < 1`; otherwise returns
`"NOW() - INTERVAL '<minutes> minutes'"`, with the LAST character removed
when `minutes == 1` (the Python slice `time_string[:-1]`). -/
def convert_mins_to_sql_time (minutes : Int) : Except String String :=
  let base_string := "NOW() - INTERVAL "
  if minutes < 1 then
    .error "All config times must be larger than one minute"
  else
    let time_string := "'" ++ toString minutes ++ " minutes'"
    let time_string := if minutes = 1 then time_string.dropRight 1 else time_string
    .ok (base_string ++ time_string)

/-- Wraps a string in single quotes, as the f-string fragment `'{genre}'`
does. -/
def in_single_quotes (s : String) : String :=
  "'" ++ s ++ "'"

/-- An email actually handed to `server.sendmail` by `send_email`. -/
structure Sent where
  recipient : String
  subject : String
  body : String
deriving DecidableEq, Repr

/-- The four statements inside the `try` block of `send_email` that can
raise: `smtplib.SMTP(...)`, `server.starttls()`, `server.login(...)`,
`server.sendmail(...)`. -/
inductive SMTPStep
  | construct
  | starttls
  | login
  | sendmail
deriving DecidableEq, Repr

/-- How the SMTP transport fails for one recipient: at which step, and
whether the raised exception is an `smtplib.SMTPConnectError` (the only
class `send_email` catches). -/
structure SMTPFailure where
  step : SMTPStep
  is_connect_error : Bool
deriving DecidableEq, Repr

/-- The SMTP transport, per recipient: `none` means every step succeeds,
`some f` means step `f.step` raises (connect-error or not per
`f.is_connect_error`). -/
def Transport : Type := String → Option SMTPFailure

/-- Function `send_email` from `alerts.py`.  Returns the list of emails handed to
`sendmail` (empty or a singleton) and `some e` when an exception `e`
propagates out of the function.  The `try` block runs the four SMTP steps;
`except smtplib.SMTPConnectError` logs and swallows only that class; the
`finally` block runs `server.quit()`, which raises `NameError` when the
constructor itself raised (the local `server` was never bound). -/
def send_email (tr : Transport) (recipient subject body : String) :
    List Sent × Option String :=
  match tr recipient with
  | none => ([⟨recipient, subject, body⟩], none)
  | some f =>
    match f.step, f.is_connect_error with
    | .construct, true => ([], some "NameError")
    | .construct, false => ([], some "NameError")
    | _, true => ([], none)
    | _, false => ([], some "SMTPError")

/-- One `for email in emails: send_*_alert(email, ...)` dispatch loop from
`alerts.py`.  There is no `try` around the loop body, so the first
exception propagating out of `send_email` aborts the loop; emails sent
before the failure stay sent. -/
def send_loop (tr : Transport) (emails : List String) (subject body : String) :
    List Sent × Option String :=
  match emails with
  | [] => ([], none)
  | e :: rest =>
    match send_email tr e subject body with
    | (sent, some err) => (sent, some err)
    | (sent, none) =>
      let r := send_loop tr rest subject body
      (sent ++ r.1, r.2)

/-- The database as seen by `alerts.py`: each `query_*` / `get_*` function
either returns its result or raises a `psycopg2.Error` (modelled as
`Except.error`). -/
structure DB where
  top_artist : Except String String
  historic_top_artist : Except String String
  top_genre : Except String String
  historic_top_genre : Except String String
  general_subscriber_emails : Except String (List String)
  subscribed_genres : Except String (List String)
  genre_sales : String → Except String Int
  historic_genre_sales : String → Except String Int
  genre_subscriber_emails : String → Except String (List String)

/-- Subject of `send_top_artist_alert`. -/
def send_top_artist_alert_subject : String := "Top Artist Change Alert"

/-- Body of `send_top_artist_alert`. -/
def send_top_artist_alert_body (artist : String) : String :=
  "The artist with the most sales in the last " ++
    py_int_div_float_repr COMPARISON_PERIOD 60 ++
    " hours has changed!\nThe new number 1 artist is " ++ artist ++ "."

/-- Subject of `send_top_genre_alert`. -/
def send_top_genre_alert_subject : String := "Top Genre Change Alert"

/-- Body of `send_top_genre_alert`. -/
def send_top_genre_alert_body (genre : String) : String :=
  "The genre with the most sales in the last " ++
    py_int_div_float_repr COMPARISON_PERIOD 60 ++
    " hours has changed!\nThe new number 1 genre is " ++ in_single_quotes genre ++ "."

/-- Subject of `send_chosen_genre_alert`: `f"{genre.title()} Growth Alert"`. -/
def send_chosen_genre_alert_subject (genre : String) : String :=
  py_title genre ++ " Growth Alert"

/-- Body of `send_chosen_genre_alert`:
`f"Your subscribed genre '{genre}' has seen a {sales_delta:.1f}% increase
in sales in the last {ALERT_INTERVAL} minutes!"` — and nothing more. -/
def send_chosen_genre_alert_body (genre : String) (sales_delta : ℚ) : String :=
  "Your subscribed genre " ++ in_single_quotes genre ++ " has seen a " ++
    format_1f sales_delta ++ "% increase in sales in the last " ++
    toString ALERT_INTERVAL ++ " minutes!"

/-- Function `calculate_genre_sales_delta` from `alerts.py`: fetches the recent and
historic sale counts and computes `100 * (recent - historic) / historic`;
Python's `/` raises `ZeroDivisionError` when `historic` is `0`. -/
def calculate_genre_sales_delta (db : DB) (genre : String) : Except String ℚ :=
  match db.genre_sales genre with
  | .error e => .error e
  | .ok recent_sales =>
    match db.historic_genre_sales genre with
    | .error e => .error e
    | .ok historic_sales =>
      if historic_sales = 0 then .error "ZeroDivisionError"
      else .ok (100 * ((recent_sales : ℚ) - historic_sales) / historic_sales)

/-- The threshold comparison on line 490 of `alerts.py`:
`sales_delta > GENRE_NOTIFICATION_THRESHOLD`, a strict `>`. -/
def exceeds_growth_threshold (delta threshold : ℚ) : Bool :=
  decide (delta > threshold)

/-- Function `alert_top_artist_change` from `alerts.py`: queries the current and
historic top artist and the general subscriber list (each query may raise,
aborting the function); when the two artist names differ, loops over the
subscribers sending `send_top_artist_alert`; otherwise does nothing. -/
def alert_top_artist_change (db : DB) (tr : Transport) :
    List Sent × Option String :=
  match db.top_artist with
  | .error e => ([], some e)
  | .ok top_artist =>
    match db.historic_top_artist with
    | .error e => ([], some e)
    | .ok historic_top_artist =>
      match db.general_subscriber_emails with
      | .error e => ([], some e)
      | .ok sub_emails =>
        if top_artist ≠ historic_top_artist then
          send_loop tr sub_emails send_top_artist_alert_subject
            (send_top_artist_alert_body top_artist)
        else ([], none)

/-- Function `alert_top_genre_change` from `alerts.py`: as for the top artist, with
the top genre. -/
def alert_top_genre_change (db : DB) (tr : Transport) :
    List Sent × Option String :=
  match db.top_genre with
  | .error e => ([], some e)
  | .ok top_genre =>
    match db.historic_top_genre with
    | .error e => ([], some e)
    | .ok historic_top_genre =>
      match db.general_subscriber_emails with
      | .error e => ([], some e)
      | .ok sub_emails =>
        if top_genre ≠ historic_top_genre then
          send_loop tr sub_emails send_top_genre_alert_subject
            (send_top_genre_alert_body top_genre)
        else ([], none)

/-- The body of one iteration of the `for genre in genres:` loop of
`alert_subscribed_genres`: compute the sales delta (a raise aborts), and
when it strictly exceeds `GENRE_NOTIFICATION_THRESHOLD`, fetch that
genre's subscribers and send each one `send_chosen_genre_alert`; below the
threshold nothing is sent. -/
def genre_step (db : DB) (tr : Transport) (genre : String) :
    List Sent × Option String :=
  match calculate_genre_sales_delta db genre with
  | .error e => ([], some e)
  | .ok sales_delta =>
    if exceeds_growth_threshold sales_delta GENRE_NOTIFICATION_THRESHOLD then
      match db.genre_subscriber_emails genre with
      | .error e => ([], some e)
      | .ok emails =>
        send_loop tr emails (send_chosen_genre_alert_subject genre)
          (send_chosen_genre_alert_body genre sales_delta)
    else ([], none)

/-- The `for genre in genres:` loop of `alert_subscribed_genres`: run
`genre_step` on each genre in order; the first exception propagating out of
an iteration aborts the loop (there is no `try` around the body). -/
def genre_loop (db : DB) (tr : Transport) :
    List String → List Sent × Option String
  | [] => ([], none)
  | genre :: rest =>
    match genre_step db tr genre with
    | (sent, some err) => (sent, some err)
    | (sent, none) =>
      let r := genre_loop db tr rest
      (sent ++ r.1, r.2)

/-- Function `alert_subscribed_genres` from `alerts.py`: fetches the subscribed
genre list and runs the per-genre loop. -/
def alert_subscribed_genres (db : DB) (tr : Transport) :
    List Sent × Option String :=
  match db.subscribed_genres with
  | .error e => ([], some e)
  | .ok genres => genre_loop db tr genres

/-- The outcome of one run of `main`: the emails sent, the exception that
propagated out (if any), and whether `db_conn.close()` was reached. -/
structure MainResult where
  sent : List Sent
  err : Option String
  conn_closed : Bool
deriving DecidableEq, Repr

/-- Function `main` from `alerts.py`: opens the connection, runs the three alert
families in order, then closes the connection.  There is no `try/finally`,
so `db_conn.close()` on the last line runs only when none of the three
calls raised. -/
def main (db : DB) (tr : Transport) : MainResult :=
  match alert_top_artist_change db tr with
  | (s1, some e) => ⟨s1, some e, false⟩
  | (s1, none) =>
    match alert_top_genre_change db tr with
    | (s2, some e) => ⟨s1 ++ s2, some e, false⟩
    | (s2, none) =>
      match alert_subscribed_genres db tr with
      | (s3, some e) => ⟨s1 ++ s2 ++ s3, some e, false⟩
      | (s3, none) => ⟨s1 ++ s2 ++ s3, none, true⟩

/-! Helper lemmas about the embedded functions. -/

theorem round_half_even_intCast (n : Int) : round_half_even (n : ℚ) = n := by
  unfold round_half_even
  norm_num

theorem format_1f_ten : format_1f 10 = "10.0" := by
  have h : ((10 : ℚ) * 10) = ((100 : ℤ) : ℚ) := by norm_num
  unfold format_1f
  rw [h, round_half_even_intCast]
  norm_num
  rfl

theorem send_chosen_genre_alert_body_jazz_ten :
    send_chosen_genre_alert_body "Jazz" 10 =
      "Your subscribed genre 'Jazz' has seen a 10.0% increase in sales in the last 60 minutes!" := by
  unfold send_chosen_genre_alert_body
  rw [format_1f_ten]
  rfl

theorem calculate_genre_sales_delta_of_ok (db : DB) (genre : String)
    (recent historic : Int)
    (hr : db.genre_sales genre = .ok recent)
    (hh : db.historic_genre_sales genre = .ok historic)
    (h0 : historic ≠ 0) :
    calculate_genre_sales_delta db genre =
      .ok (100 * ((recent : ℚ) - historic) / historic) := by
  unfold calculate_genre_sales_delta
  rw [hr, hh]
  simp [h0]

theorem calculate_genre_sales_delta_of_zero (db : DB) (genre : String)
    (recent : Int)
    (hr : db.genre_sales genre = .ok recent)
    (hh : db.historic_genre_sales genre = .ok 0) :
    calculate_genre_sales_delta db genre = .error "ZeroDivisionError" := by
  unfold calculate_genre_sales_delta
  rw [hr, hh]
  simp

theorem send_email_ok (tr : Transport) (r s b : String) (h : tr r = none) :
    send_email tr r s b = ([⟨r, s, b⟩], none) := by
  unfold send_email
  rw [h]

theorem send_email_propagating_failure (tr : Transport) (r s b : String)
    (f : SMTPFailure) (h : tr r = some f) (hc : f.is_connect_error = false) :
    (send_email tr r s b).1 = [] ∧ (send_email tr r s b).2.isSome := by
  unfold send_email
  rw [h]
  obtain ⟨step, ce⟩ := f
  simp only at hc
  subst hc
  cases step <;> simp

theorem send_loop_all_ok (tr : Transport) (emails : List String) (s b : String)
    (h : ∀ e ∈ emails, tr e = none) :
    send_loop tr emails s b = (emails.map fun e => ⟨e, s, b⟩, none) := by
  induction emails with
  | nil => rfl
  | cons e rest ih =>
    have he : tr e = none := h e (List.mem_cons_self e rest)
    have hrest : ∀ x ∈ rest, tr x = none := fun x hx => h x (List.mem_cons_of_mem e hx)
    unfold send_loop
    rw [send_email_ok tr e s b he, ih hrest]
    simp

theorem genre_loop_append (db : DB) (tr : Transport) (xs ys : List String)
    (h : (genre_loop db tr xs).2 = none) :
    genre_loop db tr (xs ++ ys) =
      ((genre_loop db tr xs).1 ++ (genre_loop db tr ys).1,
        (genre_loop db tr ys).2) := by
  induction xs with
  | nil => simp [genre_loop]
  | cons g gs ih =>
    rw [List.cons_append]
    simp only [genre_loop] at h ⊢
    rcases hs : genre_step db tr g with ⟨sent, err⟩
    rw [hs] at h
    cases err with
    | some e => simp at h
    | none =>
      dsimp only at h ⊢
      rw [ih h]
      simp [List.append_assoc]

/-! Concrete fixtures used by witnesses and counterexamples. -/

/-- An SMTP transport on which every delivery succeeds. -/
def tr_ok : Transport := fun _ => none

/-- A transport on which `server.sendmail` raises a non-connect exception
(e.g. `smtplib.SMTPRecipientsRefused`) for the one given recipient and
every other delivery succeeds. -/
def tr_fail_for (bad : String) : Transport :=
  fun r => if r = bad then some ⟨.sendmail, false⟩ else none

/-- A database where genre sales are 200 recently against 150
historically. -/
def rock_db : DB where
  top_artist := .ok "A"
  historic_top_artist := .ok "A"
  top_genre := .ok "G"
  historic_top_genre := .ok "G"
  general_subscriber_emails := .ok []
  subscribed_genres := .ok ["Rock"]
  genre_sales := fun _ => .ok 200
  historic_genre_sales := fun _ => .ok 150
  genre_subscriber_emails := fun _ => .ok []

/-- A database where every historic genre sale count is 0. -/
def zero_hist_db : DB where
  top_artist := .ok "A"
  historic_top_artist := .ok "A"
  top_genre := .ok "G"
  historic_top_genre := .ok "G"
  general_subscriber_emails := .ok []
  subscribed_genres := .ok ["Rock"]
  genre_sales := fun _ => .ok 7
  historic_genre_sales := fun _ => .ok 0
  genre_subscriber_emails := fun _ => .ok []

/-- A database where the subscribed genre grew from 50 to 60 sales: a delta
of exactly 20 percent, the notification threshold. -/
def boundary_db : DB where
  top_artist := .ok "A"
  historic_top_artist := .ok "A"
  top_genre := .ok "G"
  historic_top_genre := .ok "G"
  general_subscriber_emails := .ok []
  subscribed_genres := .ok ["rock"]
  genre_sales := fun _ => .ok 60
  historic_genre_sales := fun _ => .ok 50
  genre_subscriber_emails := fun _ => .ok ["x@y"]

/-- A database where the top artist changed only in letter case and the top
genre did not change, with one general subscriber. -/
def case_db : DB where
  top_artist := .ok "Rock"
  historic_top_artist := .ok "rock"
  top_genre := .ok "Pop"
  historic_top_genre := .ok "Pop"
  general_subscriber_emails := .ok ["a@x"]
  subscribed_genres := .ok []
  genre_sales := fun _ => .ok 0
  historic_genre_sales := fun _ => .ok 1
  genre_subscriber_emails := fun _ => .ok []

/-- A database whose very first query (`query_top_artist`) raises a
`psycopg2.Error`. -/
def qfail_db : DB where
  top_artist := .error "psycopg2.Error"
  historic_top_artist := .ok "A"
  top_genre := .ok "G"
  historic_top_genre := .ok "G"
  general_subscriber_emails := .ok []
  subscribed_genres := .ok []
  genre_sales := fun _ => .ok 1
  historic_genre_sales := fun _ => .ok 1
  genre_subscriber_emails := fun _ => .ok []

/-- A database where the first subscribed genre, "jazz", has a historic
sale count of 0 and a second subscribed genre, "pop", follows it. -/
def jazz_zero_db : DB where
  top_artist := .ok "A"
  historic_top_artist := .ok "A"
  top_genre := .ok "G"
  historic_top_genre := .ok "G"
  general_subscriber_emails := .ok []
  subscribed_genres := .ok ["jazz", "pop"]
  genre_sales := fun _ => .ok 5
  historic_genre_sales := fun g => if g = "jazz" then .ok 0 else .ok 10
  genre_subscriber_emails := fun _ => .ok ["s@x"]

/-! Claims. -/

/-- C1: for every pair of sale counts `(recent, historic)` with
`historic ≠ 0`, `calculate_genre_sales_delta` returns exactly
`100 * (recent - historic) / historic`. -/
theorem C1_genre_sales_delta_formula (db : DB) (genre : String)
    (recent historic : Int)
    (hr : db.genre_sales genre = .ok recent)
    (hh : db.historic_genre_sales genre = .ok historic)
    (h0 : historic ≠ 0) :
    calculate_genre_sales_delta db genre =
      .ok (100 * ((recent : ℚ) - historic) / historic) :=
  calculate_genre_sales_delta_of_ok db genre recent historic hr hh h0

/-- Witness for C1 at `recent = 200`, `historic = 150`: the delta is
`100 * (200 - 150) / 150`, which is within `0.01` of `33.33`. -/
theorem C1_witness :
    calculate_genre_sales_delta rock_db "Rock" =
        .ok (100 * ((200 : ℚ) - 150) / 150) ∧
    |100 * ((200 : ℚ) - 150) / 150 - 3333 / 100| ≤ 1 / 100 :=
  ⟨C1_genre_sales_delta_formula rock_db "Rock" 200 150 rfl rfl (by decide),
   by rw [abs_le]; constructor <;> norm_num⟩

/-- C2: for every recent sale count, computing the genre sales delta
against a historic count of 0 raises `ZeroDivisionError` (Python's `/`
with a zero divisor) instead of silently returning a value. -/
theorem C2_zero_historic_raises (db : DB) (genre : String) (recent : Int)
    (hr : db.genre_sales genre = .ok recent)
    (hh : db.historic_genre_sales genre = .ok 0) :
    calculate_genre_sales_delta db genre = .error "ZeroDivisionError" :=
  calculate_genre_sales_delta_of_zero db genre recent hr hh

/-- Witness for C2 on a database whose historic count is 0. -/
theorem C2_witness :
    calculate_genre_sales_delta zero_hist_db "Rock" =
      .error "ZeroDivisionError" :=
  C2_zero_historic_raises zero_hist_db "Rock" 7 rfl rfl

/-- C8: the function `convert_mins_to_sql_time` raises `ValueError` exactly when
`minutes < 1`, and returns a string for every `minutes ≥ 1`. -/
theorem C8_minutes_validated_for_positivity (m : Int) :
    (m < 1 → convert_mins_to_sql_time m =
        .error "All config times must be larger than one minute") ∧
    (1 ≤ m → ∃ s, convert_mins_to_sql_time m = .ok s) := by
  constructor
  · intro h
    simp only [convert_mins_to_sql_time]
    rw [if_pos h]
  · intro h
    simp only [convert_mins_to_sql_time]
    rw [if_neg (by omega)]
    exact ⟨_, rfl⟩

/-- Witness for C8 at `minutes = 0` (raises) and `minutes = 5` (returns a
string). -/
theorem C8_witness :
    convert_mins_to_sql_time 0 =
        .error "All config times must be larger than one minute" ∧
    ∃ s, convert_mins_to_sql_time 5 = .ok s :=
  ⟨(C8_minutes_validated_for_positivity 0).1 (by decide),
   (C8_minutes_validated_for_positivity 5).2 (by decide)⟩

/-- C9: at `minutes = 1` the slice `time_string[:-1]` removes the CLOSING
QUOTE, not the plural `s`, leaving the unterminated literal
`NOW() - INTERVAL '1 minutes` (a single apostrophe character in the whole
string); for every `minutes ≥ 2` the result is the balanced
`NOW() - INTERVAL '<minutes> minutes'`. -/
theorem C9_singular_slice_drops_closing_quote :
    convert_mins_to_sql_time 1 = .ok "NOW() - INTERVAL '1 minutes" ∧
    (("NOW() - INTERVAL '1 minutes").data.filter fun c => c.toNat = 39).length = 1 ∧
    ∀ m : Int, 2 ≤ m →
      convert_mins_to_sql_time m =
        .ok ("NOW() - INTERVAL '" ++ toString m ++ " minutes'") := by
  refine ⟨rfl, by decide, ?_⟩
  intro m hm
  simp only [convert_mins_to_sql_time]
  rw [if_neg (by omega), if_neg (by omega)]
  congr 1

/-- C3: the growth decision (line 490 of `alerts.py`) is strict: an alert
is triggered iff `delta > threshold`; a delta exactly equal to the
threshold triggers nothing (shown both on the comparison itself and on a
run of `alert_subscribed_genres` whose only subscribed genre sits exactly
at the threshold), and `threshold + 0.01` does trigger. -/
theorem C3_growth_threshold_strict (delta threshold : ℚ) (db : DB)
    (tr : Transport) (g : String) (r h : Int)
    (hsub : db.subscribed_genres = .ok [g])
    (hr : db.genre_sales g = .ok r)
    (hh : db.historic_genre_sales g = .ok h)
    (h0 : h ≠ 0)
    (hd : 100 * ((r : ℚ) - h) / h = GENRE_NOTIFICATION_THRESHOLD) :
    ((exceeds_growth_threshold delta threshold = true ↔ threshold < delta) ∧
      exceeds_growth_threshold threshold threshold = false ∧
      exceeds_growth_threshold (threshold + 1 / 100) threshold = true) ∧
    alert_subscribed_genres db tr = ([], none) := by
  refine ⟨⟨?_, ?_, ?_⟩, ?_⟩
  · simp [exceeds_growth_threshold]
  · simp [exceeds_growth_threshold]
  · simp only [exceeds_growth_threshold, decide_eq_true_eq, gt_iff_lt]
    linarith
  · have hc : calculate_genre_sales_delta db g =
        .ok GENRE_NOTIFICATION_THRESHOLD := by
      rw [calculate_genre_sales_delta_of_ok db g r h hr hh h0, hd]
    have hstep : genre_step db tr g = ([], none) := by
      unfold genre_step
      rw [hc]
      dsimp only
      rw [if_neg (by simp [exceeds_growth_threshold])]
    unfold alert_subscribed_genres
    rw [hsub]
    simp [genre_loop, hstep]

/-- Witness for C3: delta 20 against threshold 20 on a database whose only
subscribed genre grew from 50 to 60 sales (exactly 20 percent). -/
theorem C3_witness :
    ((exceeds_growth_threshold 20 20 = true ↔ (20 : ℚ) < 20) ∧
      exceeds_growth_threshold 20 20 = false ∧
      exceeds_growth_threshold (20 + 1 / 100) 20 = true) ∧
    alert_subscribed_genres boundary_db tr_ok = ([], none) :=
  C3_growth_threshold_strict 20 20 boundary_db tr_ok "rock" 60 50 rfl rfl rfl
    (by decide) (by norm_num [GENRE_NOTIFICATION_THRESHOLD])

/-- C4: the top-artist and top-genre change decisions compare the two
identity strings with case-sensitive inequality: when they differ the
alert loop over the general subscribers runs, and when they are equal
(including both empty) nothing is sent. -/
theorem C4_top_change_decision (db : DB) (tr : Transport)
    (ta hta tg htg : String) (emails : List String)
    (h1 : db.top_artist = .ok ta)
    (h2 : db.historic_top_artist = .ok hta)
    (h3 : db.general_subscriber_emails = .ok emails)
    (h4 : db.top_genre = .ok tg)
    (h5 : db.historic_top_genre = .ok htg) :
    alert_top_artist_change db tr =
      (if ta ≠ hta then
        send_loop tr emails send_top_artist_alert_subject
          (send_top_artist_alert_body ta)
      else ([], none)) ∧
    alert_top_genre_change db tr =
      (if tg ≠ htg then
        send_loop tr emails send_top_genre_alert_subject
          (send_top_genre_alert_body tg)
      else ([], none)) := by
  constructor
  · unfold alert_top_artist_change
    rw [h1, h2, h3]
  · unfold alert_top_genre_change
    rw [h4, h5, h3]

/-- Witness for C4: a top artist changed only in letter case ("Rock" vs
"rock"), which counts as a change and alerts the subscriber; the top genre
is unchanged ("Pop" vs "Pop") and nothing is sent for it. -/
theorem C4_witness :
    (alert_top_artist_change case_db tr_ok =
        (if "Rock" ≠ "rock" then
          send_loop tr_ok ["a@x"] send_top_artist_alert_subject
            (send_top_artist_alert_body "Rock")
        else ([], none)) ∧
      alert_top_genre_change case_db tr_ok =
        (if "Pop" ≠ "Pop" then
          send_loop tr_ok ["a@x"] send_top_genre_alert_subject
            (send_top_genre_alert_body "Pop")
        else ([], none))) ∧
    alert_top_artist_change case_db tr_ok =
      ([⟨"a@x", send_top_artist_alert_subject,
          send_top_artist_alert_body "Rock"⟩], none) ∧
    alert_top_genre_change case_db tr_ok = ([], none) :=
  ⟨C4_top_change_decision case_db tr_ok "Rock" "rock" "Pop" "Pop" ["a@x"]
      rfl rfl rfl rfl rfl,
   by decide, by decide⟩

/-- C5: evaluating the GenreGrowth formatter at genre "Jazz", delta 10.0
and interval 60: the subject is "Jazz Growth Alert" and the body is the
single increase sentence required by the claim — but, contrary to the
claim and to `test_send_chosen_genre_alert_no_top_artists` in
`src/alerts/test_alerts.py`, `send_chosen_genre_alert` takes no top-artist
list and its body contains no "top selling artists" header at all. -/
theorem C5_formatter_missing_top_artists_section :
    send_chosen_genre_alert_subject "Jazz" = "Jazz Growth Alert" ∧
    send_chosen_genre_alert_body "Jazz" 10 =
      "Your subscribed genre 'Jazz' has seen a 10.0% increase in sales in the last 60 minutes!" ∧
    contains_sub (send_chosen_genre_alert_body "Jazz" 10)
      "top selling artists" = false := by
  refine ⟨by decide, send_chosen_genre_alert_body_jazz_ten, ?_⟩
  rw [send_chosen_genre_alert_body_jazz_ten]
  decide

/-- Witness for C9 at `minutes = 7`. -/
theorem C9_witness :
    convert_mins_to_sql_time 7 =
      .ok ("NOW() - INTERVAL '" ++ toString (7 : Int) ++ " minutes'") :=
  C9_singular_slice_drops_closing_quote.2.2 7 (by decide)

/-- Counterexample to C6 as stated: two recipients, and `sendmail` raises
a non-connect exception (`SMTPRecipientsRefused`-like) for the first one.
The dispatch loop returns the propagating error and nothing is sent: it
did NOT continue to the second recipient, even though delivery to that
recipient alone would have succeeded. -/
theorem C6_counterexample :
    send_loop (tr_fail_for "a@x") ["a@x", "b@x"] "S" "B" =
        ([], some "SMTPError") ∧
    send_email (tr_fail_for "a@x") "b@x" "S" "B" =
        ([⟨"b@x", "S", "B"⟩], none) := by
  constructor <;> rfl

/-- C6 amended: the function `send_email` catches (and logs) only
`smtplib.SMTPConnectError`; any other delivery failure for one recipient
propagates and aborts the dispatch loop — the recipients before the
failing one keep their sends, and every recipient after it is skipped. -/
theorem C6_delivery_failure_aborts_loop (tr : Transport)
    (pre post : List String) (e subject body : String)
    (hpre : ∀ p ∈ pre, tr p = none)
    (hf : ∃ f, tr e = some f ∧ f.is_connect_error = false) :
    (send_loop tr (pre ++ e :: post) subject body).2.isSome = true ∧
    (send_loop tr (pre ++ e :: post) subject body).1 =
      pre.map fun p => ⟨p, subject, body⟩ := by
  obtain ⟨f, hfe, hfc⟩ := hf
  induction pre with
  | nil =>
    simp only [List.nil_append, List.map_nil]
    have h1 := send_email_propagating_failure tr e subject body f hfe hfc
    rcases hse : send_email tr e subject body with ⟨sent, err⟩
    rw [hse] at h1
    obtain ⟨hs0, he0⟩ := h1
    dsimp only at hs0 he0
    subst hs0
    cases err with
    | none => simp at he0
    | some er => simp [send_loop, hse]
  | cons p ps ih =>
    have hp : tr p = none := hpre p (List.mem_cons_self p ps)
    have hps : ∀ x ∈ ps, tr x = none :=
      fun x hx => hpre x (List.mem_cons_of_mem p hx)
    have ih2 := ih hps
    rw [List.cons_append]
    simp only [send_loop]
    rw [send_email_ok tr p subject body hp]
    dsimp only
    exact ⟨ih2.1, by rw [ih2.2]; simp⟩

/-- Witness for C6 amended: recipient list `["a@x", "b@x", "c@x"]` where
only `"b@x"` fails: `"a@x"` gets its email, the loop aborts at `"b@x"`,
and `"c@x"` is skipped. -/
theorem C6_witness :
    (send_loop (tr_fail_for "b@x") (["a@x"] ++ "b@x" :: ["c@x"])
        "S" "B").2.isSome = true ∧
    (send_loop (tr_fail_for "b@x") (["a@x"] ++ "b@x" :: ["c@x"])
        "S" "B").1 = ["a@x"].map fun p => ⟨p, "S", "B"⟩ :=
  C6_delivery_failure_aborts_loop (tr_fail_for "b@x") ["a@x"] ["c@x"]
    "b@x" "S" "B"
    (by intro p hp; simp only [List.mem_singleton] at hp; subst hp; rfl)
    ⟨⟨.sendmail, false⟩, rfl, rfl⟩

/-- Counterexample to C7 as stated: on a database whose very first query
raises a `psycopg2.Error`, `main` terminates with the propagated error and
`db_conn.close()` on its last line is never reached — the connection is
NOT closed on this exit path. -/
theorem C7_counterexample :
    main qfail_db tr_ok = ⟨[], some "psycopg2.Error", false⟩ := by
  rfl

/-- C7 amended: the function `main` has no `try/finally`, so the connection is closed
exactly on the normal exit path: `db_conn.close()` runs iff no exception
propagated out of the three alert families; when a query raises, the run
terminates without closing the connection. -/
theorem C7_conn_closed_only_on_success (db : DB) (tr : Transport) :
    (main db tr).conn_closed = true ↔ (main db tr).err = none := by
  unfold main
  rcases h1 : alert_top_artist_change db tr with ⟨s1, e1⟩
  cases e1 with
  | some er => simp
  | none =>
    rcases h2 : alert_top_genre_change db tr with ⟨s2, e2⟩
    cases e2 with
    | some er => simp
    | none =>
      rcases h3 : alert_subscribed_genres db tr with ⟨s3, e3⟩
      cases e3 <;> simp

/-- C10: when a subscribed genre has a historic sale count of 0 (and the
genres before it in the list completed their iterations without raising),
the `ZeroDivisionError` propagates out of the per-genre loop: the sends of
the run are exactly those of the earlier genres, no genre after it is
evaluated, and the error propagates out of `main`, terminating the run. -/
theorem C10_zero_historic_aborts_run (db : DB) (tr : Transport)
    (g : String) (pre post : List String) (recent : Int)
    (hsub : db.subscribed_genres = .ok (pre ++ g :: post))
    (hz : db.historic_genre_sales g = .ok 0)
    (hr : db.genre_sales g = .ok recent)
    (hpre : (genre_loop db tr pre).2 = none)
    (ha : (alert_top_artist_change db tr).2 = none)
    (hg : (alert_top_genre_change db tr).2 = none) :
    alert_subscribed_genres db tr =
        ((genre_loop db tr pre).1, some "ZeroDivisionError") ∧
    (main db tr).err = some "ZeroDivisionError" := by
  have hstep : genre_step db tr g = ([], some "ZeroDivisionError") := by
    unfold genre_step
    rw [calculate_genre_sales_delta_of_zero db g recent hr hz]
  have hloop : genre_loop db tr (g :: post) = ([], some "ZeroDivisionError") := by
    simp [genre_loop, hstep]
  have hsg : alert_subscribed_genres db tr =
      ((genre_loop db tr pre).1, some "ZeroDivisionError") := by
    unfold alert_subscribed_genres
    rw [hsub]
    dsimp only
    rw [genre_loop_append db tr pre (g :: post) hpre, hloop]
    simp
  refine ⟨hsg, ?_⟩
  unfold main
  rcases h1 : alert_top_artist_change db tr with ⟨s1, e1⟩
  rw [h1] at ha
  dsimp only at ha
  subst ha
  rcases h2 : alert_top_genre_change db tr with ⟨s2, e2⟩
  rw [h2] at hg
  dsimp only at hg
  subst hg
  rw [hsg]

/-- Witness for C10: subscribed genres `["jazz", "pop"]` where "jazz" has
historic count 0: the run raises `ZeroDivisionError`, sends nothing, and
never evaluates "pop". -/
theorem C10_witness :
    alert_subscribed_genres jazz_zero_db tr_ok =
        ((genre_loop jazz_zero_db tr_ok []).1, some "ZeroDivisionError") ∧
    (main jazz_zero_db tr_ok).err = some "ZeroDivisionError" :=
  C10_zero_historic_aborts_run jazz_zero_db tr_ok "jazz" [] ["pop"] 5
    rfl rfl rfl rfl rfl rfl

end BandCamp
